import Mathlib

/-!
Verification of the Felay GUI companion process
(`packages/gui/src-tauri/src/main.rs`) against its natural-language
specification.

The Rust source is shallowly embedded: pure helpers become Lean functions;
the ambient environment (environment variables, the lock file on disk, the
IPC transport, the HTTP layer, the zip writer) is passed explicitly as
data.  String manipulation is modelled over `List Char` (the `data` of a
`String`) with structural recursion, mirroring the Rust `str` operations
used by the source.
-/

/- ── Character-list string helpers (models of the Rust `str` methods) ── -/

/-- Model of Rust `str::split(sep)` on a single separator character:
splits a character list on every occurrence of `sep`; the empty input
yields one empty piece, exactly as in Rust. -/
def splitOnC (sep : Char) : List Char → List (List Char)
  | [] => [[]]
  | c :: rest =>
    match splitOnC sep rest with
    | [] => [[]]
    | piece :: pieces =>
      if c = sep then [] :: piece :: pieces
      else (c :: piece) :: pieces

/-- Digits of a character list interpreted in base 10, or `none` when the
list is empty or holds a non-ASCII-digit character. -/
def digitsToNat : List Char → Option Nat
  | [] => none
  | cs => go cs 0
where
  go : List Char → Nat → Option Nat
    | [], acc => some acc
    | c :: rest, acc =>
      if c.isDigit then go rest (acc * 10 + (c.toNat - '0'.toNat))
      else none

/-- Model of Rust `str::parse::<u64>()`: an optional leading `+`, then at
least one ASCII digit, with the value bounded by `2 ^ 64`. -/
def parseU64C (cs : List Char) : Option Nat :=
  let t := match cs with
    | '+' :: rest => rest
    | other => other
  match digitsToNat t with
  | some n => if n < 2 ^ 64 then some n else none
  | none => none

/-- Model of Rust `str::contains(needle)` (case-sensitive substring
test): some suffix of the haystack starts with the needle. -/
def containsSubC (needle : List Char) : List Char → Bool
  | [] => needle.isEmpty
  | hay@(_ :: rest) => List.isPrefixOf needle hay || containsSubC needle rest

/-- String-level wrapper of `containsSubC`. -/
def strContains (hay needle : String) : Bool :=
  containsSubC needle.data hay.data

/- ── JSON documents (model of `serde_json::Value`) ── -/

/-- Model of `serde_json::Value`.  Objects are association lists; the
values produced by `serde_json` parsing have pairwise-distinct keys, and
numbers appearing in this development are integers. -/
inductive Json where
  | null : Json
  | bool (b : Bool) : Json
  | num (n : Int) : Json
  | str (s : String) : Json
  | arr (elems : List Json) : Json
  | obj (fields : List (String × Json)) : Json

/-- First field of an object's field list with the given key (model of
`serde_json::Map` lookup; parsed maps have unique keys). -/
def findField (k : String) : List (String × Json) → Option Json
  | [] => none
  | (k', v) :: rest => if k' = k then some v else findField k rest

/-- A JSON value viewed as an `i64`, as `serde` deserializes the Rust
field type `i64` (fails on non-numbers and on out-of-range values). -/
def asI64 : Json → Option Int
  | .num n => if -(2 ^ 63) ≤ n ∧ n < 2 ^ 63 then some n else none
  | _ => none

/-- A JSON value viewed as a `String`, as `serde` deserializes `String`. -/
def asStr : Json → Option String
  | .str s => some s
  | _ => none

/-- A JSON value viewed as a `bool`. -/
def asBool : Json → Option Bool
  | .bool b => some b
  | _ => none

/-- An optional object field viewed as `Option<String>`: a missing field
and an explicit `null` both give `none`; a non-string, non-null value is a
deserialization failure. -/
def parseOptStr : Option Json → Option (Option String)
  | none => some none
  | some .null => some none
  | some (.str s) => some (some s)
  | some _ => none

/-- An optional object field viewed as `Option<bool>`. -/
def parseOptBool : Option Json → Option (Option Bool)
  | none => some none
  | some .null => some none
  | some (.bool b) => some (some b)
  | some _ => none

/- ── Endpoint Locator (main.rs: get_home_dir / get_lock_file_path /
     default_ipc_path / read_lock_file / get_ipc_path) ── -/

/-- The two platform families distinguished by the source's `cfg`
attributes: `windows` (`target_os = "windows"`) and `unixLike`
(`target_family = "unix"`). -/
inductive Platform where
  | windows : Platform
  | unixLike : Platform

/-- The environment variables consulted by `get_home_dir`. -/
structure Env where
  userprofile : Option String
  home : Option String

/-- Model of `get_home_dir`: `env::var("USERPROFILE").ok().or_else(||
env::var("HOME").ok())`. -/
def get_home_dir (e : Env) : Option String :=
  e.userprofile.orElse fun _ => e.home

/-- Model of `get_lock_file_path`: `<home>/.felay/daemon.json` (path
separators written POSIX-style; the path is only used as a lookup key). -/
def get_lock_file_path (e : Env) : Option String :=
  (get_home_dir e).map fun home => home ++ "/.felay/daemon.json"

/-- The fixed Windows named-pipe endpoint literal from `default_ipc_path`. -/
def windows_pipe : String := "\\\\.\\pipe\\felay"

/-- Model of `default_ipc_path`: on Windows the fixed pipe name (no
environment access); on unix-like systems `<home>/.felay/daemon.sock`,
failing when no home directory is available. -/
def default_ipc_path (pf : Platform) (e : Env) : Option String :=
  match pf with
  | .windows => some windows_pipe
  | .unixLike => (get_home_dir e).map fun home => home ++ "/.felay/daemon.sock"

/-- Observable state of the lock file on disk: absent, present but not
valid JSON text, or present with parsed JSON document `j`. -/
inductive FileContent where
  | absentF : FileContent
  | unparseable : FileContent
  | json (j : Json) : FileContent

/-- Rust struct `DaemonLockFile { pid: i64, ipc: String }`. -/
structure DaemonLockFile where
  pid : Int
  ipc : String

/-- Model of `serde_json::from_str::<DaemonLockFile>` on an
already-lexed document: both fields required, unknown fields ignored. -/
def lockFromJson : Json → Option DaemonLockFile
  | .obj fields => do
    let pidV ← findField "pid" fields
    let pid ← asI64 pidV
    let ipcV ← findField "ipc" fields
    let ipc ← asStr ipcV
    some ⟨pid, ipc⟩
  | _ => none

/-- Model of `read_lock_file`: path resolution may fail (no home
directory); then the lock-file text must be present, lex as JSON and
deserialize as a `DaemonLockFile`.  `lock` is the state of the file at
`<home>/.felay/daemon.json`. -/
def read_lock_file (e : Env) (lock : FileContent) : Option DaemonLockFile :=
  match get_lock_file_path e with
  | none => none
  | some _ =>
    match lock with
    | .absentF => none
    | .unparseable => none
    | .json j => lockFromJson j

/-- Model of `get_ipc_path`:
`read_lock_file().map(|lock| lock.ipc).or_else(default_ipc_path)`. -/
def get_ipc_path (pf : Platform) (e : Env) (lock : FileContent) : Option String :=
  ((read_lock_file e lock).map DaemonLockFile.ipc).orElse fun _ =>
    default_ipc_path pf e

/-- Endpoint resolution as the specification words it (for comparison
with `get_ipc_path`): a parseable lock file wins; otherwise the platform
default; with no home directory, resolution fails on unix-like systems
while Windows still has its fixed pipe name. -/
def resolveEndpointSpec (pf : Platform) (e : Env) (lock : FileContent) :
    Option String :=
  match get_home_dir e with
  | none =>
    match pf with
    | .windows => some windows_pipe
    | .unixLike => none
  | some _ =>
    match lock with
    | .json j =>
      match lockFromJson j with
      | some l => some l.ipc
      | none => default_ipc_path pf e
    | _ => default_ipc_path pf e

/- ── Version comparison (main.rs: version_gt) ── -/

/-- Model of the closure `parse` inside `version_gt`:
`s.split('.').filter_map(|p| p.parse().ok()).collect()` — components that
fail to parse as `u64` are dropped, shifting later components leftward. -/
def parseVersion (s : String) : List Nat :=
  (splitOnC '.' s.data).filterMap parseU64C

/-- The `for i in 0..3` loop of `version_gt`, unrolled: each component
defaults to `0` when missing, and the loop returns early on the first
strict difference. -/
def version_cmp_loop (va vb : List Nat) : Bool :=
  let a0 := va.getD 0 0
  let b0 := vb.getD 0 0
  if a0 > b0 then true
  else if a0 < b0 then false
  else
    let a1 := va.getD 1 0
    let b1 := vb.getD 1 0
    if a1 > b1 then true
    else if a1 < b1 then false
    else
      let a2 := va.getD 2 0
      let b2 := vb.getD 2 0
      if a2 > b2 then true
      else if a2 < b2 then false
      else false

/-- Model of `version_gt`: true iff version string `a` is greater than
`b`. -/
def version_gt (a b : String) : Bool :=
  version_cmp_loop (parseVersion a) (parseVersion b)

/-- The first three parsed components of a version string, missing ones
defaulting to `0`. -/
def versionTriple (s : String) : Nat × Nat × Nat :=
  let v := parseVersion s
  (v.getD 0 0, v.getD 1 0, v.getD 2 0)

/-- Lexicographic-numeric "greater" on (major, minor, patch), as the
specification words it. -/
def lexGt3 : Nat × Nat × Nat → Nat × Nat × Nat → Bool :=
  fun (a0, a1, a2) (b0, b1, b2) =>
    decide (a0 > b0 ∨ (a0 = b0 ∧ (a1 > b1 ∨ (a1 = b1 ∧ a2 > b2))))

/- ── Config sanitization (main.rs: sanitize_value / sanitize_config) ── -/

/-- The `SENSITIVE` fragment list of `sanitize_value`. -/
def SENSITIVE : List String := ["appSecret", "encryptKey", "secret", "webhook"]

/-- An object key matches when it contains one of the sensitive fragments
as a (case-sensitive) substring. -/
def isSensitiveKey (k : String) : Bool :=
  SENSITIVE.any fun s => strContains k s

/-- The replacement performed on the value of a matching key: a non-empty
string becomes the mask token `"***"`; anything else (empty string,
non-string) is left untouched. -/
def maskIfNonEmptyStr : Json → Json
  | .str s => if s = "" then .str s else .str "***"
  | v => v

mutual

/-- Model of `sanitize_value`: in an object, a field with a matching key
has its value masked (when a non-empty string) and is otherwise left
whole — the source does not recurse under matching keys; a field with a
non-matching key is recursed into.  Arrays are recursed elementwise;
scalars are untouched. -/
def sanitize_value : Json → Json
  | .null => .null
  | .bool b => .bool b
  | .num n => .num n
  | .str s => .str s
  | .arr elems => .arr (sanitizeArr elems)
  | .obj fields => .obj (sanitizeFields fields)

/-- Elementwise `sanitize_value` over an array's elements. -/
def sanitizeArr : List Json → List Json
  | [] => []
  | v :: rest => sanitize_value v :: sanitizeArr rest

/-- Fieldwise transform of an object's fields, as in `sanitize_value`'s
`for (k, v) in map.iter_mut()` loop. -/
def sanitizeFields : List (String × Json) → List (String × Json)
  | [] => []
  | (k, v) :: rest =>
    (k, if isSensitiveKey k then maskIfNonEmptyStr v else sanitize_value v) ::
      sanitizeFields rest

end

/-- Model of `sanitize_config`: text that lexes as a JSON document is
sanitized and re-serialized (`ser` models `serde_json::to_string_pretty`,
whose failure falls back to the raw text); text that does not parse is
returned unchanged.  `fromStr` models `serde_json::from_str::<Value>`. -/
def sanitize_config (fromStr : String → Option Json)
    (ser : Json → Option String) (raw : String) : String :=
  match fromStr raw with
  | some j => (ser (sanitize_value j)).getD raw
  | none => raw

/- ── Paths into a JSON document (for stating what sanitization does) ── -/

/-- One step of a path into a JSON document: an object key or an array
index. -/
inductive PathElem where
  | key (k : String) : PathElem
  | idx (i : Nat) : PathElem

/-- The sub-value of a document at a path, when the path exists. -/
def getPath : Json → List PathElem → Option Json
  | j, [] => some j
  | .obj fields, .key k :: p => (findField k fields).bind fun v => getPath v p
  | .arr elems, .idx i :: p => (elems.get? i).bind fun v => getPath v p
  | _, _ => none

/-- Whether a path element is an object key matching a sensitive
fragment. -/
def elemIsSensitiveKey : PathElem → Bool
  | .key k => isSensitiveKey k
  | .idx _ => false

/- ── Claim C2: sanitization ── -/

/-- A strict ancestor step of the path is a matching object key (such a
step freezes the whole subtree below it in `sanitize_value`). -/
def hasInnerSensitive (p : List PathElem) : Bool :=
  p.dropLast.any elemIsSensitiveKey

/-- The final step of the path is a matching object key. -/
def lastElemSensitive (p : List PathElem) : Bool :=
  match p.getLast? with
  | some el => elemIsSensitiveKey el
  | none => false

/- ── Update checker (main.rs: check_update) ── -/

/-- Rust struct `UpdateInfo` returned by `check_update`. -/
structure UpdateInfo where
  not_modified : Bool
  etag : String
  has_update : Bool
  current_version : String
  latest_version : String
  release_url : String
  release_notes : String
  deriving DecidableEq

/-- The observable parts of the HTTP response consumed by
`check_update`: status code, the `etag` header when present and
readable, and the body's JSON parse result (`resp.json()`). -/
structure HttpResponse where
  status : Nat
  etagHeader : Option String
  body : Except String Json

/-- Model of `json[k].as_str()` on a `serde_json::Value`: indexing a
non-object or a missing key gives `Null`, and `as_str` then yields
`None`. -/
def json_field_str (j : Json) (k : String) : Option String :=
  match j with
  | .obj fields => (findField k fields).bind asStr
  | _ => none

/-- Model of the tag normalization in `check_update`:
`tag.trim_start_matches('v').split('-').next().unwrap_or("0.0.0")` —
leading `v`s are stripped and the part before the first `-` is kept
(`split` never yields an empty iterator, so the `"0.0.0"` default is
dead code, kept for faithfulness). -/
def normalize_tag (tag : String) : String :=
  let stripped := tag.data.dropWhile fun c => c == 'v'
  match splitOnC '-' stripped with
  | [] => "0.0.0"
  | piece :: _ => String.mk piece

/-- Model of `reqwest::StatusCode::is_success`: `200 ≤ s ≤ 299`. -/
def is_success_status (status : Nat) : Bool :=
  200 ≤ status && status ≤ 299

/-- Model of `check_update`.  `current` is `CARGO_PKG_VERSION`;
`sendResult` is the outcome of `req.send()` (client build and transport
failures surface as `.error`).  A `304` echoes the cached ETag with
`has_update = false`; any other non-success status is an error; a
success response is parsed, its `tag_name` normalized for the numeric
comparison while `latest_version` keeps the original tag string. -/
def check_update (current : String) (cachedEtag : Option String)
    (sendResult : Except String HttpResponse) : Except String UpdateInfo :=
  match sendResult with
  | .error e => .error e
  | .ok resp =>
    if resp.status = 304 then
      .ok ⟨true, cachedEtag.getD "", false, current, "", "", ""⟩
    else if !is_success_status resp.status then
      .error ("GitHub API returned " ++ toString resp.status)
    else
      match resp.body with
      | .error e => .error e
      | .ok json =>
        let tag := (json_field_str json "tag_name").getD "v0.0.0"
        .ok ⟨false, resp.etagHeader.getD "", version_gt (normalize_tag tag) current,
          current, tag,
          (json_field_str json "html_url").getD "",
          (json_field_str json "body").getD ""⟩

/- ── Status read (main.rs: request_daemon_status / read_daemon_status) ── -/

/-- Rust struct `DaemonSession` (deserialized with camelCase keys). -/
structure DaemonSession where
  session_id : String
  cli : String
  cwd : String
  status : String
  started_at : String
  interactive_bot_id : Option String
  interactive_bot_connected : Option Bool
  push_bot_id : Option String
  push_enabled : Option Bool
  deriving DecidableEq

/-- Rust struct `BotWarning` (deserialized with camelCase keys). -/
structure BotWarning where
  bot_id : String
  message : String
  deriving DecidableEq

/-- Rust struct `DaemonStatusPayload`. -/
structure DaemonStatusPayload where
  daemon_pid : Int
  active_sessions : Int
  sessions : List DaemonSession
  warnings : Option (List BotWarning)
  deriving DecidableEq

/-- Rust struct `Session` (the serialized mirror of `DaemonSession`). -/
structure Session where
  session_id : String
  cli : String
  cwd : String
  status : String
  started_at : String
  interactive_bot_id : Option String
  interactive_bot_connected : Option Bool
  push_bot_id : Option String
  push_enabled : Option Bool
  deriving DecidableEq

/-- Rust struct `GuiStatus`, the value `read_daemon_status` returns. -/
structure GuiStatus where
  running : Bool
  daemon_pid : Option Int
  active_sessions : Int
  sessions : List Session
  warnings : List BotWarning
  deriving DecidableEq

/-- Model of `serde` deserialization of a `DaemonSession` from a JSON
value: five required string fields, four optional fields. -/
def parseDaemonSession : Json → Option DaemonSession
  | .obj fields => do
    let sid ← (findField "sessionId" fields).bind asStr
    let cli ← (findField "cli" fields).bind asStr
    let cwd ← (findField "cwd" fields).bind asStr
    let status ← (findField "status" fields).bind asStr
    let started ← (findField "startedAt" fields).bind asStr
    let ibi ← parseOptStr (findField "interactiveBotId" fields)
    let ibc ← parseOptBool (findField "interactiveBotConnected" fields)
    let pbi ← parseOptStr (findField "pushBotId" fields)
    let pe ← parseOptBool (findField "pushEnabled" fields)
    some ⟨sid, cli, cwd, status, started, ibi, ibc, pbi, pe⟩
  | _ => none

/-- Model of `serde` deserialization of a `BotWarning`. -/
def parseBotWarning : Json → Option BotWarning
  | .obj fields => do
    let bid ← (findField "botId" fields).bind asStr
    let msg ← (findField "message" fields).bind asStr
    some ⟨bid, msg⟩
  | _ => none

/-- Model of `serde` deserialization of a `Vec<T>`: the value must be an
array and every element must deserialize. -/
def parseListWith (p : Json → Option α) : Json → Option (List α)
  | .arr elems => elems.mapM p
  | _ => none

/-- Model of `serde` deserialization of an `Option<Vec<T>>` field. -/
def parseOptListWith (p : Json → Option α) : Option Json → Option (Option (List α))
  | none => some none
  | some .null => some none
  | some v => (parseListWith p v).map some

/-- Model of `serde` deserialization of a `DaemonStatusPayload`. -/
def parseDaemonStatusPayload : Json → Option DaemonStatusPayload
  | .obj fields => do
    let pid ← (findField "daemonPid" fields).bind asI64
    let act ← (findField "activeSessions" fields).bind asI64
    let sess ← (findField "sessions" fields).bind (parseListWith parseDaemonSession)
    let warn ← parseOptListWith parseBotWarning (findField "warnings" fields)
    some ⟨pid, act, sess, warn⟩
  | _ => none

/-- Model of `serde` deserialization of a `DaemonStatus`
(`{ payload: DaemonStatusPayload }`). -/
def parseDaemonStatus : Json → Option DaemonStatusPayload
  | .obj fields => (findField "payload" fields).bind parseDaemonStatusPayload
  | _ => none

/-- The literal request line `{"type":"status_request"}`. -/
def status_request_line : String := "\x7b\"type\":\"status_request\"\x7d"

/-- Model of `request_daemon_status`: send the status request through
the transport (`ipc_request`, which collapses connect / write / read /
timeout / JSON-lex failures to `none`) and deserialize the typed
envelope; a shape mismatch also gives `none`. -/
def request_daemon_status (transport : String → String → Option Json)
    (path : String) : Option DaemonStatusPayload :=
  (transport path status_request_line).bind parseDaemonStatus

/-- The field-for-field copy from `DaemonSession` to `Session` performed
in `read_daemon_status`. -/
def sessionOfDaemon (s : DaemonSession) : Session :=
  ⟨s.session_id, s.cli, s.cwd, s.status, s.started_at, s.interactive_bot_id,
    s.interactive_bot_connected, s.push_bot_id, s.push_enabled⟩

/-- The degraded `GuiStatus` returned on resolution or probe failure. -/
def emptyGuiStatus : GuiStatus := ⟨false, none, 0, [], []⟩

/-- Model of `read_daemon_status`: `ipc` is the result of
`get_ipc_path()`. -/
def read_daemon_status (ipc : Option String)
    (transport : String → String → Option Json) : GuiStatus :=
  match ipc with
  | none => emptyGuiStatus
  | some path =>
    match request_daemon_status transport path with
    | none => emptyGuiStatus
    | some st =>
      ⟨true, some st.daemon_pid, st.active_sessions,
        st.sessions.map sessionOfDaemon, st.warnings.getD []⟩

/-- A transport on which every request fails. -/
def transportDown : String → String → Option Json := fun _ _ => none

/-- A transport answering every request with a minimal well-formed
status payload (pid 42, one active session, no session list entries). -/
def transportStatusOk : String → String → Option Json := fun _ _ =>
  some (.obj [("payload", .obj [("daemonPid", .num 42),
    ("activeSessions", .num 1), ("sessions", .arr [])])])

/- ── Lifecycle Supervisor auto-start (main.rs: auto_start_daemon) ── -/

/-- The fixed attempt bound of the `for _ in 0..20` polling loop. -/
def poll_attempts : Nat := 20

/-- The fixed sleep between polls, `Duration::from_millis(300)` (the
sleep itself has no observable effect in this embedding). -/
def poll_interval_ms : Nat := 300

/-- The polling loop of `auto_start_daemon`: with `fuel` attempts left
and `i` polls already performed, query the liveness probe for poll `i`;
on success return `some i` (the zero-based index of the succeeding
poll), else continue; `none` when the fuel runs out. -/
def pollLoop (probe : Nat → Bool) : Nat → Nat → Option Nat
  | 0, _ => none
  | fuel + 1, i => if probe i then some i else pollLoop probe fuel (i + 1)

/-- The observable outcome of `auto_start_daemon` (each constructor is
one of the source's `return`/fall-through points). -/
inductive StartOutcome where
  | alreadyRunning : StartOutcome
  | exeNotFound : StartOutcome
  | spawnFailed : StartOutcome
  | started (attempt : Nat) : StartOutcome
  | gaveUp : StartOutcome
  deriving DecidableEq

/-- Model of `auto_start_daemon`: skip when the daemon is already
reachable; give up when the executable cannot be located or spawning
fails (logged, non-fatal); otherwise poll liveness up to `poll_attempts`
times, reporting the 1-based attempt number of the first success, or
`gaveUp` after the bound is exhausted.  `probe k` is the outcome of
`is_daemon_running()` on the `k`-th poll (zero-based). -/
def auto_start_daemon (initiallyRunning exeFound spawnOk : Bool)
    (probe : Nat → Bool) : StartOutcome :=
  if initiallyRunning then .alreadyRunning
  else if !exeFound then .exeNotFound
  else if !spawnOk then .spawnFailed
  else
    match pollLoop probe poll_attempts 0 with
    | some i => .started (i + 1)
    | none => .gaveUp

/-- A probe that fails on the first three polls and succeeds on the
fourth (zero-based index 3). -/
def probeFourth : Nat → Bool := fun i => decide (i = 3)

/-- A probe that never succeeds. -/
def probeNever : Nat → Bool := fun _ => false

/- ── Mutating verbs (main.rs: save_bot … setup_claude_config) ── -/

/-- Rust struct `GenericOkPayload { ok: bool, error: Option<String> }`. -/
structure GenericOkPayload where
  ok : Bool
  error : Option String
  deriving DecidableEq

/-- Model of `serde` deserialization of a `GenericOkPayload`. -/
def parseGenericOkPayload : Json → Option GenericOkPayload
  | .obj fields => do
    let okV ← findField "ok" fields
    let ok ← asBool okV
    let err ← parseOptStr (findField "error" fields)
    some ⟨ok, err⟩
  | _ => none

/-- Model of `serde` deserialization of a `GenericOkResponse`
(`{ payload: GenericOkPayload }`). -/
def parseGenericOkResponse : Json → Option GenericOkPayload
  | .obj fields => (findField "payload" fields).bind parseGenericOkPayload
  | _ => none

/-- The `{"ok": false, "error": "daemon not running"}` object every
mutating verb returns when endpoint resolution fails. -/
def noDaemonJson : Json :=
  .obj [("ok", .bool false), ("error", .str "daemon not running")]

/-- The `{"ok": false, "error": "no response from daemon"}` object every
mutating verb returns on transport failure or payload shape mismatch. -/
def noRespJson : Json :=
  .obj [("ok", .bool false), ("error", .str "no response from daemon")]

/-- The `{"ok": .., "error": ..}` object carrying a parsed generic
outcome verbatim (`serde_json::json!` turns `None` into `null`). -/
def okErrJson (p : GenericOkPayload) : Json :=
  .obj [("ok", .bool p.ok),
    ("error", match p.error with | some s => .str s | none => .null)]

/-- The shared tail of every mutating verb: send the serialized request
line through the transport (`ipc_request_typed`), deserialize the
generic outcome envelope, and surface `ok`/`error` verbatim; transport
failure or shape mismatch yields `noRespJson`. -/
def generic_ok_call (transport : String → String → Option Json)
    (path reqLine : String) : Json :=
  match (transport path reqLine).bind parseGenericOkResponse with
  | some p => okErrJson p
  | none => noRespJson

/-- The request document built by `save_bot` (the `interactive` payload
key for bot type `"interactive"`, the `push` key otherwise). -/
def save_bot_req (botType : String) (config : Json) : Json :=
  if botType = "interactive" then
    .obj [("type", .str "save_bot_request"),
      ("payload", .obj [("botType", .str "interactive"), ("interactive", config)])]
  else
    .obj [("type", .str "save_bot_request"),
      ("payload", .obj [("botType", .str "push"), ("push", config)])]

/-- The request document built by `delete_bot`. -/
def delete_bot_req (botType botId : String) : Json :=
  .obj [("type", .str "delete_bot_request"),
    ("payload", .obj [("botType", .str botType), ("botId", .str botId)])]

/-- The request document built by `bind_bot`. -/
def bind_bot_req (sessionId botType botId : String) : Json :=
  .obj [("type", .str "bind_bot_request"),
    ("payload", .obj [("sessionId", .str sessionId), ("botType", .str botType),
      ("botId", .str botId)])]

/-- The request document built by `unbind_bot`. -/
def unbind_bot_req (sessionId botType : String) : Json :=
  .obj [("type", .str "unbind_bot_request"),
    ("payload", .obj [("sessionId", .str sessionId), ("botType", .str botType)])]

/-- The request document built by `test_bot`. -/
def test_bot_req (botType botId : String) : Json :=
  .obj [("type", .str "test_bot_request"),
    ("payload", .obj [("botType", .str botType), ("botId", .str botId)])]

/-- The request document built by `activate_bot`. -/
def activate_bot_req (botId : String) : Json :=
  .obj [("type", .str "activate_bot_request"),
    ("payload", .obj [("botId", .str botId)])]

/-- The request document built by `save_config`. -/
def save_config_req (config : Json) : Json :=
  .obj [("type", .str "save_config_request"), ("payload", config)]

/-- The literal request line `{"type":"setup_codex_config_request"}`. -/
def setup_codex_config_line : String :=
  "\x7b\"type\":\"setup_codex_config_request\"\x7d"

/-- The literal request line `{"type":"setup_claude_config_request"}`. -/
def setup_claude_config_line : String :=
  "\x7b\"type\":\"setup_claude_config_request\"\x7d"

/-- Model of the `save_bot` command.  `ipc` is the result of
`get_ipc_path()`; `ser` models `serde_json::to_string` (with
`unwrap_or_default`); `transport` models `ipc_request`. -/
def save_bot (ipc : Option String) (ser : Json → String)
    (transport : String → String → Option Json) (botType : String)
    (config : Json) : Json :=
  match ipc with
  | none => noDaemonJson
  | some path => generic_ok_call transport path (ser (save_bot_req botType config))

/-- Model of the `delete_bot` command. -/
def delete_bot (ipc : Option String) (ser : Json → String)
    (transport : String → String → Option Json) (botType botId : String) : Json :=
  match ipc with
  | none => noDaemonJson
  | some path => generic_ok_call transport path (ser (delete_bot_req botType botId))

/-- Model of the `bind_bot` command. -/
def bind_bot (ipc : Option String) (ser : Json → String)
    (transport : String → String → Option Json)
    (sessionId botType botId : String) : Json :=
  match ipc with
  | none => noDaemonJson
  | some path =>
    generic_ok_call transport path (ser (bind_bot_req sessionId botType botId))

/-- Model of the `unbind_bot` command. -/
def unbind_bot (ipc : Option String) (ser : Json → String)
    (transport : String → String → Option Json) (sessionId botType : String) :
    Json :=
  match ipc with
  | none => noDaemonJson
  | some path =>
    generic_ok_call transport path (ser (unbind_bot_req sessionId botType))

/-- Model of the `test_bot` command. -/
def test_bot (ipc : Option String) (ser : Json → String)
    (transport : String → String → Option Json) (botType botId : String) : Json :=
  match ipc with
  | none => noDaemonJson
  | some path => generic_ok_call transport path (ser (test_bot_req botType botId))

/-- Model of the `activate_bot` command. -/
def activate_bot (ipc : Option String) (ser : Json → String)
    (transport : String → String → Option Json) (botId : String) : Json :=
  match ipc with
  | none => noDaemonJson
  | some path => generic_ok_call transport path (ser (activate_bot_req botId))

/-- Model of the `save_config` command. -/
def save_config (ipc : Option String) (ser : Json → String)
    (transport : String → String → Option Json) (config : Json) : Json :=
  match ipc with
  | none => noDaemonJson
  | some path => generic_ok_call transport path (ser (save_config_req config))

/-- Model of the `setup_codex_config` command (its request line is a
source literal, not built through the serializer). -/
def setup_codex_config (ipc : Option String)
    (transport : String → String → Option Json) : Json :=
  match ipc with
  | none => noDaemonJson
  | some path => generic_ok_call transport path setup_codex_config_line

/-- Model of the `setup_claude_config` command. -/
def setup_claude_config (ipc : Option String)
    (transport : String → String → Option Json) : Json :=
  match ipc with
  | none => noDaemonJson
  | some path => generic_ok_call transport path setup_claude_config_line

/-- A serializer standing in for `serde_json::to_string` in witnesses
(its output is never inspected by the transports used there). -/
def serNull : Json → String := fun _ => ""

/-- A transport answering every request with a well-formed generic
outcome `{payload: {ok: true}}`. -/
def transportOkTrue : String → String → Option Json := fun _ _ =>
  some (.obj [("payload", .obj [("ok", .bool true)])])

/- ── Diagnostic bundle exporter (main.rs: collect_logs) ── -/

/-- Observable state of a file in the daemon's data directory: absent
(`path.exists()` false), present but unreadable (`fs::read` fails), or
present with readable contents. -/
inductive FileState where
  | absentF : FileState
  | unreadable : FileState
  | readable (content : String) : FileState

/-- Whether `path.exists()` is true for the file. -/
def FileState.isPresent : FileState → Bool
  | .absentF => false
  | _ => true

/-- Failure injection for the zip writer: `start_file` and `write_all`
outcomes per entry name, and the `finish` outcome (`some e` is a failure
with error text `e`). -/
structure ZipEnv where
  startErr : String → Option String
  writeErr : String → Option String
  finishErr : Option String

/-- The ambient state `collect_logs` runs against: home directory,
save-file dialog result (`none` covers the dialog yielding no usable
path), `fs::File::create` outcome, the files under `<home>/.felay` by
name, the JSON codec used by `sanitize_config`, the zip writer, and the
data feeding the `system-info.txt` entry. -/
structure CollectEnv where
  home : Option String
  savePath : Option String
  createErr : Option String
  fs : String → FileState
  fromStr : String → Option Json
  serPretty : Json → Option String
  zip : ZipEnv
  version : String
  osName : String
  archName : String
  now : Nat

/-- One archive entry being written: `start_file` then `write_all`, each
aborting with its caller-supplied message on failure; on success the
entry (name, contents) is appended to the archive. -/
def zipAdd (z : ZipEnv) (acc : List (String × String)) (name content : String)
    (mkStartMsg mkWriteMsg : String → String) :
    Except String (List (String × String)) :=
  match z.startErr name with
  | some e => .error (mkStartMsg e)
  | none =>
    match z.writeErr name with
    | some e => .error (mkWriteMsg e)
    | none => .ok (acc ++ [(name, content)])

/-- The fixed log-file name list of `collect_logs`. -/
def log_file_names : List String :=
  ["daemon.json", "proxy-debug.log", "proxy-hook-debug.log"]

/-- One iteration of the log-collection loop: an absent file is skipped;
a present file whose read fails is also skipped (the source's
`if let Ok(content) = fs::read(&path)`); a readable file is copied into
the archive under its own name, zip failures aborting with the source's
message formats. -/
def collectLogsStep (e : CollectEnv) (acc : List (String × String))
    (name : String) : Except String (List (String × String)) :=
  match e.fs name with
  | .absentF => .ok acc
  | .unreadable => .ok acc
  | .readable content =>
    zipAdd e.zip acc name content
      (fun er => "zip start_file '" ++ name ++ "': " ++ er)
      (fun er => "zip write '" ++ name ++ "': " ++ er)

/-- The config phase of `collect_logs`: an absent or unreadable
`config.json` is skipped; a readable one is sanitized and written under
the renamed entry `config-sanitized.json`. -/
def configStep (e : CollectEnv) (acc : List (String × String)) :
    Except String (List (String × String)) :=
  match e.fs "config.json" with
  | .absentF => .ok acc
  | .unreadable => .ok acc
  | .readable raw =>
    zipAdd e.zip acc "config-sanitized.json"
      (sanitize_config e.fromStr e.serPretty raw)
      (fun er => "zip start_file config: " ++ er)
      (fun er => "zip write config: " ++ er)

/-- The `system-info.txt` contents (the lock-exists flag queries
`daemon.json` in the data directory). -/
def sysinfoText (e : CollectEnv) : String :=
  "App Version: " ++ e.version ++ "\nOS: " ++ e.osName ++ "\nArch: " ++
    e.archName ++ "\nDaemon Lock Exists: " ++
    (if (e.fs "daemon.json").isPresent then "true" else "false") ++
    "\nTimestamp: " ++ toString e.now

/-- Model of `collect_logs`.  The returned value is the list of archive
entries written (the source returns the save path; the archive contents
are its observable effect).  The `?`-propagated failures are modelled
with `Except.bind`. -/
def collect_logs (e : CollectEnv) : Except String (List (String × String)) :=
  match e.home with
  | none => .error "Cannot determine home directory"
  | some _ =>
    match e.savePath with
    | none => .error "User cancelled"
    | some _ =>
      match e.createErr with
      | some er => .error ("Cannot create file: " ++ er)
      | none =>
        (collectLogsStep e [] "daemon.json").bind fun acc1 =>
        (collectLogsStep e acc1 "proxy-debug.log").bind fun acc2 =>
        (collectLogsStep e acc2 "proxy-hook-debug.log").bind fun acc3 =>
        (configStep e acc3).bind fun acc4 =>
        (zipAdd e.zip acc4 "system-info.txt" (sysinfoText e)
          (fun er => "zip start_file sysinfo: " ++ er)
          (fun er => "zip write sysinfo: " ++ er)).bind fun acc5 =>
        match e.zip.finishErr with
        | some er => .error ("Failed to finalize zip: " ++ er)
        | none => .ok acc5

/-- Whether an `Except` result is a success. -/
def isOkE : Except String α → Bool
  | .ok _ => true
  | .error _ => false

/-- Both zip operations for an entry succeed. -/
def entryOk (z : ZipEnv) (name : String) : Bool :=
  (z.startErr name).isNone && (z.writeErr name).isNone

/-- The zip operations a log file requires succeed (a skipped file
requires none). -/
def stepOk (e : CollectEnv) (name : String) : Bool :=
  match e.fs name with
  | .readable _ => entryOk e.zip name
  | _ => true

/-- The zip operations the config entry requires succeed. -/
def configOk (e : CollectEnv) : Bool :=
  match e.fs "config.json" with
  | .readable _ => entryOk e.zip "config-sanitized.json"
  | _ => true

/-- Success condition of the whole export, as the (amended)
specification words it: the preliminary steps succeed and every zip
operation that is attempted succeeds — read failures of present files
impose no condition. -/
def collectOk (e : CollectEnv) : Bool :=
  e.home.isSome && (e.savePath.isSome && (e.createErr.isNone &&
    (stepOk e "daemon.json" && (stepOk e "proxy-debug.log" &&
      (stepOk e "proxy-hook-debug.log" && (configOk e &&
        (entryOk e.zip "system-info.txt" && e.zip.finishErr.isNone)))))))

/-- The archive entry a log file contributes (none when skipped). -/
def stepEntries (e : CollectEnv) (name : String) : List (String × String) :=
  match e.fs name with
  | .readable content => [(name, content)]
  | _ => []

/-- The archive entry the config file contributes. -/
def configEntries (e : CollectEnv) : List (String × String) :=
  match e.fs "config.json" with
  | .readable raw =>
    [("config-sanitized.json", sanitize_config e.fromStr e.serPretty raw)]
  | _ => []

/-- The full archive contents of a successful export. -/
def builtEntries (e : CollectEnv) : List (String × String) :=
  stepEntries e "daemon.json" ++ stepEntries e "proxy-debug.log" ++
    stepEntries e "proxy-hook-debug.log" ++ configEntries e ++
    [("system-info.txt", sysinfoText e)]

/-- `e` with the file `name` forced to state `st`. -/
def withFile (e : CollectEnv) (name : String) (st : FileState) : CollectEnv :=
  { e with fs := fun n => if n = name then st else e.fs n }

/-- The export environment of the C4 counterexample: a home directory
and save path are available, `proxy-debug.log` is present but
unreadable, every other file is absent, and the zip writer never
fails. -/
def envC4 : CollectEnv where
  home := some "/home/u"
  savePath := some "/tmp/out.zip"
  createErr := none
  fs := fun n => if n = "proxy-debug.log" then .unreadable else .absentF
  fromStr := fun _ => none
  serPretty := fun _ => none
  zip := ⟨fun _ => none, fun _ => none, none⟩
  version := "0.1.0"
  osName := "linux"
  archName := "x86_64"
  now := 1700000000

/-- The environment of the C4 witness: `daemon.json` present but
unreadable, everything else absent. -/
def envDaemonUnreadable : CollectEnv :=
  { envC4 with fs := fun n => if n = "daemon.json" then .unreadable else .absentF }

/-- The environment of the C9 witness: `config.json` is present and
readable but its text does not parse as JSON. -/
def envC9 : CollectEnv :=
  { envC4 with
    fs := fun n => if n = "config.json" then .readable "not json" else .absentF }

/- ── Theorems ── -/

theorem getPath_nil (j : Json) : getPath j [] = some j := by
  cases j <;> rfl

theorem getPath_obj_key (fields : List (String × Json)) (k : String)
    (p : List PathElem) :
    getPath (.obj fields) (.key k :: p) =
      (findField k fields).bind fun v => getPath v p := rfl

theorem getPath_arr_idx (elems : List Json) (i : Nat) (p : List PathElem) :
    getPath (.arr elems) (.idx i :: p) =
      (elems.get? i).bind fun v => getPath v p := rfl

/-- C1 (amended): `get_ipc_path` equals the spec-level resolution
`resolveEndpointSpec` on every platform, environment and lock-file state:
a present and parseable lock file always wins; an absent, unparseable or
structurally mismatched lock file falls through to the platform default;
with no home directory, resolution returns `none` on unix-like systems
but still returns the fixed pipe name on Windows.  Both functions are
deterministic by construction. -/
theorem C1_get_ipc_path_amended (pf : Platform) (e : Env) (lock : FileContent) :
    get_ipc_path pf e lock = resolveEndpointSpec pf e lock := by
  cases hh : get_home_dir e with
  | none =>
    cases pf <;> cases lock <;>
      simp [get_ipc_path, resolveEndpointSpec, read_lock_file,
        get_lock_file_path, default_ipc_path, hh, Option.orElse]
  | some h =>
    cases lock with
    | json j =>
      cases hl : lockFromJson j <;>
        simp [get_ipc_path, resolveEndpointSpec, read_lock_file,
          get_lock_file_path, default_ipc_path, hh, hl, Option.orElse]
    | absentF =>
      simp [get_ipc_path, resolveEndpointSpec, read_lock_file,
        get_lock_file_path, default_ipc_path, hh, Option.orElse]
    | unparseable =>
      simp [get_ipc_path, resolveEndpointSpec, read_lock_file,
        get_lock_file_path, default_ipc_path, hh, Option.orElse]

/-- C1 counterexample: with neither `USERPROFILE` nor `HOME` set, the
claim requires resolution to return `None`, but on Windows the code
returns the fixed named-pipe endpoint. -/
theorem C1_counterexample :
    (Env.mk none none).userprofile = none ∧
    (Env.mk none none).home = none ∧
    get_ipc_path .windows (Env.mk none none) .absentF = some windows_pipe ∧
    get_ipc_path .windows (Env.mk none none) .absentF ≠ none := by
  refine ⟨rfl, rfl, rfl, by decide⟩

/-- The unrolled comparison loop agrees with the lexicographic-numeric
"greater" on the first three components (defaulting to `0`). -/
theorem version_cmp_loop_eq_lexGt3 (va vb : List Nat) :
    version_cmp_loop va vb =
      lexGt3 (va.getD 0 0, va.getD 1 0, va.getD 2 0)
        (vb.getD 0 0, vb.getD 1 0, vb.getD 2 0) := by
  simp only [version_cmp_loop, lexGt3]
  generalize va.getD 0 0 = a0
  generalize va.getD 1 0 = a1
  generalize va.getD 2 0 = a2
  generalize vb.getD 0 0 = b0
  generalize vb.getD 1 0 = b1
  generalize vb.getD 2 0 = b2
  rcases Nat.lt_trichotomy a0 b0 with h0 | h0 | h0
  · simp [Nat.lt_asymm h0, h0, Nat.ne_of_lt h0]
  · subst h0
    rcases Nat.lt_trichotomy a1 b1 with h1 | h1 | h1
    · simp [Nat.lt_asymm h1, h1, Nat.ne_of_lt h1, Nat.lt_irrefl]
    · subst h1
      rcases Nat.lt_trichotomy a2 b2 with h2 | h2 | h2
      · simp [Nat.lt_asymm h2, h2, Nat.lt_irrefl]
      · subst h2
        simp [Nat.lt_irrefl]
      · simp [h2, Nat.lt_irrefl]
    · simp [h1, Nat.lt_irrefl, Nat.lt_asymm h1]
  · simp [h0]

/-- C3: `version_gt a b` is true iff the (major, minor, patch) triple
parsed from `a` is lexicographically-numerically greater than the triple
parsed from `b` (missing components defaulting to `0`, comparison
short-circuiting on the first difference), and the specification's three
examples hold. -/
theorem C3_version_gt_lexicographic :
    (∀ a b : String,
      version_gt a b = lexGt3 (versionTriple a) (versionTriple b)) ∧
    version_gt "1.2.0" "1.1.9" = true ∧
    version_gt "1.0.0" "1.0.0" = false ∧
    version_gt "2.0" "1.9.9" = true := by
  refine ⟨fun a b => ?_, by decide, by decide, by decide⟩
  simpa [versionTriple] using
    version_cmp_loop_eq_lexGt3 (parseVersion a) (parseVersion b)

/-- C10: components that do not parse as `u64` are silently dropped and
later numeric components shift leftward: `"1.beta.2"` parses as `[1, 2]`
and so compares greater than `"1.1.9"`, and a fully non-numeric string
parses as `[]` and compares exactly as `"0.0.0"` against every
right-hand side. -/
theorem C10_version_gt_drops_bad_components :
    version_gt "1.beta.2" "1.1.9" = true ∧
    parseVersion "1.beta.2" = [1, 2] ∧
    parseVersion "beta.rc.x" = [] ∧
    ∀ b : String, version_gt "beta.rc.x" b = version_gt "0.0.0" b := by
  refine ⟨by decide, by decide, by decide, fun b => ?_⟩
  show version_cmp_loop [] (parseVersion b) =
    version_cmp_loop [0, 0, 0] (parseVersion b)
  rfl

theorem sanitizeArr_eq_map (xs : List Json) :
    sanitizeArr xs = xs.map sanitize_value := by
  induction xs with
  | nil => rfl
  | cons v rest ih => simp [sanitizeArr, ih]

theorem findField_sanitizeFields (k : String) (fs : List (String × Json)) :
    findField k (sanitizeFields fs) =
      (findField k fs).map fun v =>
        if isSensitiveKey k then maskIfNonEmptyStr v else sanitize_value v := by
  induction fs with
  | nil => rfl
  | cons p rest ih =>
    obtain ⟨k', v⟩ := p
    by_cases h : k' = k
    · subst h
      simp [sanitizeFields, findField]
    · simp [sanitizeFields, findField, h, ih]

theorem getPath_null_cons (el : PathElem) (p : List PathElem) :
    getPath .null (el :: p) = none := by cases el <;> rfl

theorem getPath_bool_cons (b : Bool) (el : PathElem) (p : List PathElem) :
    getPath (.bool b) (el :: p) = none := by cases el <;> rfl

theorem getPath_num_cons (n : Int) (el : PathElem) (p : List PathElem) :
    getPath (.num n) (el :: p) = none := by cases el <;> rfl

theorem getPath_str_cons (t : String) (el : PathElem) (p : List PathElem) :
    getPath (.str t) (el :: p) = none := by cases el <;> rfl

theorem getPath_obj_idx (fields : List (String × Json)) (i : Nat)
    (p : List PathElem) : getPath (.obj fields) (.idx i :: p) = none := rfl

theorem getPath_arr_key (elems : List Json) (k : String) (p : List PathElem) :
    getPath (.arr elems) (.key k :: p) = none := rfl

/-- C2 (amended): the string found at any path of the sanitized document
is characterized as follows — if some strict ancestor step of the path is
a matching key, the string is unchanged (the code does not recurse below
a matching key); otherwise, if the final step is a matching key and the
string is non-empty, it has been replaced by the mask token `"***"`;
in every other case (non-matching final key, array-index final step, or
empty string) it is unchanged. -/
theorem C2_sanitize_characterization_amended :
    ∀ (p : List PathElem) (j : Json) (s : String),
      getPath j p = some (.str s) →
      getPath (sanitize_value j) p =
        some (if hasInnerSensitive p then Json.str s
          else if lastElemSensitive p ∧ s ≠ "" then Json.str "***"
          else Json.str s) := by
  intro p
  induction p with
  | nil =>
    intro j s h
    rw [getPath_nil] at h
    obtain rfl : j = .str s := Option.some.inj h
    simp [sanitize_value, getPath_nil, hasInnerSensitive, lastElemSensitive]
  | cons el rest ih =>
    intro j s h
    cases el with
    | key k =>
      cases j with
      | obj fields =>
        rw [getPath_obj_key] at h
        cases hf : findField k fields with
        | none => rw [hf] at h; exact absurd h (by simp)
        | some v =>
          rw [hf, Option.some_bind] at h
          rw [show sanitize_value (.obj fields) = .obj (sanitizeFields fields)
              from rfl,
            getPath_obj_key, findField_sanitizeFields, hf, Option.map_some',
            Option.some_bind]
          by_cases hs : isSensitiveKey k = true
          · rw [if_pos hs]
            cases rest with
            | nil =>
              rw [getPath_nil] at h
              obtain rfl : v = .str s := Option.some.inj h
              by_cases he : s = ""
              · subst he
                simp [maskIfNonEmptyStr, getPath_nil, hasInnerSensitive,
                  lastElemSensitive, List.getLast?_singleton,
                  elemIsSensitiveKey, hs]
              · simp [maskIfNonEmptyStr, he, getPath_nil, hasInnerSensitive,
                  lastElemSensitive, List.getLast?_singleton,
                  elemIsSensitiveKey, hs]
            | cons r rs =>
              have hfrozen : maskIfNonEmptyStr v = v := by
                cases v with
                | str t => rw [getPath_str_cons] at h; exact absurd h (by simp)
                | null => rfl
                | bool b => rfl
                | num n => rfl
                | arr elems => rfl
                | obj fs => rfl
              rw [hfrozen]
              have hinner : hasInnerSensitive (.key k :: r :: rs) = true := by
                have hd : (PathElem.key k :: r :: rs).dropLast =
                    PathElem.key k :: (r :: rs).dropLast := rfl
                simp [hasInnerSensitive, hd, elemIsSensitiveKey, hs]
              rw [hinner, if_pos rfl]
              exact h
          · rw [if_neg hs]
            have hrec := ih v s h
            cases rest with
            | nil =>
              rw [getPath_nil] at h
              obtain rfl : v = .str s := Option.some.inj h
              simp [sanitize_value, getPath_nil, hasInnerSensitive,
                lastElemSensitive, List.getLast?_singleton, elemIsSensitiveKey,
                hs]
            | cons r rs =>
              rw [hrec]
              have e1 : hasInnerSensitive (.key k :: r :: rs) =
                  hasInnerSensitive (r :: rs) := by
                have hd : (PathElem.key k :: r :: rs).dropLast =
                    PathElem.key k :: (r :: rs).dropLast := rfl
                simp [hasInnerSensitive, hd, elemIsSensitiveKey, hs]
              have e2 : lastElemSensitive (.key k :: r :: rs) =
                  lastElemSensitive (r :: rs) := by
                simp [lastElemSensitive, List.getLast?_cons_cons]
              rw [e1, e2]
      | null => rw [getPath_null_cons] at h; exact absurd h (by simp)
      | bool b => rw [getPath_bool_cons] at h; exact absurd h (by simp)
      | num n => rw [getPath_num_cons] at h; exact absurd h (by simp)
      | str t => rw [getPath_str_cons] at h; exact absurd h (by simp)
      | arr elems => rw [getPath_arr_key] at h; exact absurd h (by simp)
    | idx i =>
      cases j with
      | arr elems =>
        rw [getPath_arr_idx] at h
        cases hf : elems.get? i with
        | none => rw [hf] at h; exact absurd h (by simp)
        | some v =>
          rw [hf, Option.some_bind] at h
          rw [show sanitize_value (.arr elems) = .arr (sanitizeArr elems)
              from rfl,
            getPath_arr_idx, sanitizeArr_eq_map, List.get?_map, hf,
            Option.map_some', Option.some_bind]
          have hrec := ih v s h
          cases rest with
          | nil =>
            rw [getPath_nil] at h
            obtain rfl : v = .str s := Option.some.inj h
            simp [sanitize_value, getPath_nil, hasInnerSensitive,
              lastElemSensitive, List.getLast?_singleton, elemIsSensitiveKey]
          | cons r rs =>
            rw [hrec]
            have e1 : hasInnerSensitive (.idx i :: r :: rs) =
                hasInnerSensitive (r :: rs) := by
              have hd : (PathElem.idx i :: r :: rs).dropLast =
                  PathElem.idx i :: (r :: rs).dropLast := rfl
              simp [hasInnerSensitive, hd, elemIsSensitiveKey]
            have e2 : lastElemSensitive (.idx i :: r :: rs) =
                lastElemSensitive (r :: rs) := by
              simp [lastElemSensitive, List.getLast?_cons_cons]
            rw [e1, e2]
      | null => rw [getPath_null_cons] at h; exact absurd h (by simp)
      | bool b => rw [getPath_bool_cons] at h; exact absurd h (by simp)
      | num n => rw [getPath_num_cons] at h; exact absurd h (by simp)
      | str t => rw [getPath_str_cons] at h; exact absurd h (by simp)
      | obj fields => rw [getPath_obj_idx] at h; exact absurd h (by simp)

/-- C2 witness: applying the characterization to the document
`{"appSecretKey": "s3"}` at path `["appSecretKey"]` masks the value. -/
theorem C2_sanitize_characterization_amended_witness :
    getPath (sanitize_value (.obj [("appSecretKey", .str "s3")]))
      [.key "appSecretKey"] = some (.str "***") :=
  (C2_sanitize_characterization_amended [.key "appSecretKey"]
    (.obj [("appSecretKey", .str "s3")]) "s3" rfl).trans (by rfl)

/-- C2 counterexample: in `{"secret": {"secret": "x"}}` the inner value
is a non-empty string under the matching key `"secret"`, yet
`sanitize_value` leaves it unmasked, because the source does not recurse
below a matching key whose value is not a string. -/
theorem C2_counterexample :
    isSensitiveKey "secret" = true ∧
    getPath (.obj [("secret", .obj [("secret", .str "x")])])
      [.key "secret", .key "secret"] = some (.str "x") ∧
    ("x" : String) ≠ "" ∧
    getPath (sanitize_value (.obj [("secret", .obj [("secret", .str "x")])]))
      [.key "secret", .key "secret"] = some (.str "x") ∧
    ("x" : String) ≠ "***" := by
  exact ⟨by decide, rfl, by decide, rfl, by decide⟩

/-- C5: a `304` response with a supplied cached etag yields
`not_modified = true`, `has_update = false` and echoes the etag; a `200`
response with `tag_name = "v1.3.0-beta"` against current version
`"1.2.0"` yields `has_update = true` while `latest_version` keeps the
original un-normalized tag; any other non-success status is an error, as
is a transport failure. -/
theorem C5_check_update_conditional :
    (∀ (current etag : String) (resp : HttpResponse), resp.status = 304 →
      check_update current (some etag) (.ok resp) =
        .ok ⟨true, etag, false, current, "", "", ""⟩) ∧
    (check_update "1.2.0" none (.ok ⟨200, some "W/\"x\"",
        .ok (.obj [("tag_name", .str "v1.3.0-beta"), ("html_url", .str "u"),
          ("body", .str "n")])⟩) =
      .ok ⟨false, "W/\"x\"", true, "1.2.0", "v1.3.0-beta", "u", "n"⟩) ∧
    (∀ (current : String) (cachedEtag : Option String) (resp : HttpResponse),
      resp.status ≠ 304 → is_success_status resp.status = false →
      check_update current cachedEtag (.ok resp) =
        .error ("GitHub API returned " ++ toString resp.status)) ∧
    (∀ (current : String) (cachedEtag : Option String) (e : String),
      check_update current cachedEtag (.error e) = .error e) := by
  refine ⟨?_, by rfl, ?_, fun current cachedEtag e => rfl⟩
  · intro current etag resp h
    simp [check_update, h]
  · intro current cachedEtag resp h1 h2
    simp [check_update, h1, h2]

/-- C5 witness: the implications of `C5_check_update_conditional`
discharged at concrete responses. -/
theorem C5_check_update_conditional_witness :
    check_update "1.0.0" (some "E") (.ok ⟨304, none, .error "x"⟩) =
      .ok ⟨true, "E", false, "1.0.0", "", "", ""⟩ ∧
    check_update "1.0.0" none (.ok ⟨500, none, .error "x"⟩) =
      .error ("GitHub API returned " ++ toString (500 : Nat)) ∧
    check_update "1.0.0" none (.error "timed out") = .error "timed out" := by
  obtain ⟨h304, _, herr, htrans⟩ := C5_check_update_conditional
  exact ⟨h304 "1.0.0" "E" ⟨304, none, .error "x"⟩ rfl,
    herr "1.0.0" none ⟨500, none, .error "x"⟩ (by decide) (by decide),
    htrans "1.0.0" none "timed out"⟩

/-- C7: `read_daemon_status` degrades on every failure — endpoint
resolution failure or any probe failure (`request_daemon_status = none`
covers connect, write, read, timeout and parse failures) returns
`running = false`, no pid, zero active sessions and empty session and
warning lists; a successful probe returns `running = true` with the
payload's pid, active-session count and sessions; the function is total,
so no hard failure propagates. -/
theorem C7_read_daemon_status_degrades :
    (∀ transport, read_daemon_status none transport = emptyGuiStatus) ∧
    (∀ transport path, request_daemon_status transport path = none →
      read_daemon_status (some path) transport = emptyGuiStatus) ∧
    (∀ transport path st, request_daemon_status transport path = some st →
      read_daemon_status (some path) transport =
        ⟨true, some st.daemon_pid, st.active_sessions,
          st.sessions.map sessionOfDaemon, st.warnings.getD []⟩) ∧
    emptyGuiStatus = ⟨false, none, 0, [], []⟩ := by
  refine ⟨fun transport => rfl, ?_, ?_, rfl⟩
  · intro transport path h
    simp [read_daemon_status, h]
  · intro transport path st h
    simp [read_daemon_status, h]

/-- C7 witness: the failure and success branches of
`C7_read_daemon_status_degrades` discharged on concrete transports. -/
theorem C7_read_daemon_status_degrades_witness :
    read_daemon_status (some "/tmp/d.sock") transportDown = emptyGuiStatus ∧
    read_daemon_status (some "/tmp/d.sock") transportStatusOk =
      ⟨true, some 42, 1, [], []⟩ := by
  obtain ⟨-, hfail, hok, -⟩ := C7_read_daemon_status_degrades
  exact ⟨hfail transportDown "/tmp/d.sock" rfl,
    hok transportStatusOk "/tmp/d.sock" ⟨42, 1, [], none⟩ rfl⟩

theorem pollLoop_succeeds (probe : Nat → Bool) :
    ∀ (fuel i k : Nat), i ≤ k → k < i + fuel →
      (∀ j, i ≤ j → j < k → probe j = false) → probe k = true →
      pollLoop probe fuel i = some k := by
  intro fuel
  induction fuel with
  | zero => intro i k h1 h2 _ _; omega
  | succ n ih =>
    intro i k h1 h2 hf ht
    by_cases hik : i = k
    · subst hik
      simp [pollLoop, ht]
    · have hfalse : probe i = false := hf i le_rfl (by omega)
      simp only [pollLoop, hfalse, Bool.false_eq_true, if_false]
      exact ih (i + 1) k (by omega) (by omega)
        (fun j hj1 hj2 => hf j (by omega) hj2) ht

theorem pollLoop_exhausts (probe : Nat → Bool) :
    ∀ (fuel i : Nat), (∀ j, i ≤ j → j < i + fuel → probe j = false) →
      pollLoop probe fuel i = none := by
  intro fuel
  induction fuel with
  | zero => intro i _; rfl
  | succ n ih =>
    intro i hf
    have hfalse : probe i = false := hf i le_rfl (by omega)
    simp only [pollLoop, hfalse, Bool.false_eq_true, if_false]
    exact ih (i + 1) fun j hj1 hj2 => hf j (by omega) (by omega)

theorem pollLoop_congr (p q : Nat → Bool) :
    ∀ (fuel i : Nat), (∀ j, i ≤ j → j < i + fuel → p j = q j) →
      pollLoop p fuel i = pollLoop q fuel i := by
  intro fuel
  induction fuel with
  | zero => intro i _; rfl
  | succ n ih =>
    intro i hf
    have h0 : p i = q i := hf i le_rfl (by omega)
    simp only [pollLoop, h0]
    by_cases hq : q i = true
    · simp [hq]
    · simp only [Bool.not_eq_true] at hq
      simp only [hq, Bool.false_eq_true, if_false]
      exact ih (i + 1) fun j hj1 hj2 => hf j (by omega) (by omega)

/-- C8: the auto-start polling loop is bounded and total — its outcome
depends only on the first `poll_attempts = 20` probe results (so at most
20 polls are performed); if the probe first succeeds on poll `k < 20`
the loop reports success as attempt `k + 1` (success on the fourth
attempt after three failures included, see the witness); if no probe in
the budget succeeds it gives up after exactly the 20 attempts; the
cadence constant is 300 ms. -/
theorem C8_auto_start_bounded :
    poll_attempts = 20 ∧ poll_interval_ms = 300 ∧
    (∀ (probe : Nat → Bool) (k : Nat), k < poll_attempts → probe k = true →
      (∀ j, j < k → probe j = false) →
      auto_start_daemon false true true probe = .started (k + 1)) ∧
    (∀ probe : Nat → Bool, (∀ j, j < poll_attempts → probe j = false) →
      auto_start_daemon false true true probe = .gaveUp) ∧
    (∀ p q : Nat → Bool, (∀ j, j < poll_attempts → p j = q j) →
      auto_start_daemon false true true p = auto_start_daemon false true true q) := by
  refine ⟨rfl, rfl, ?_, ?_, ?_⟩
  · intro probe k hk ht hf
    have h := pollLoop_succeeds probe poll_attempts 0 k (by omega) (by omega)
      (fun j _ hj2 => hf j hj2) ht
    simp [auto_start_daemon, h]
  · intro probe hf
    have h := pollLoop_exhausts probe poll_attempts 0
      (fun j _ hj2 => hf j (by omega))
    simp [auto_start_daemon, h]
  · intro p q hf
    have h := pollLoop_congr p q poll_attempts 0
      (fun j _ hj2 => hf j (by omega))
    simp [auto_start_daemon, h]

/-- C8 witness: three failures then a success yields `started 4`; a
never-succeeding probe yields `gaveUp`; the dependency bound discharged
on a concrete pair of probes. -/
theorem C8_auto_start_bounded_witness :
    auto_start_daemon false true true probeFourth = .started 4 ∧
    auto_start_daemon false true true probeNever = .gaveUp ∧
    auto_start_daemon false true true probeNever =
      auto_start_daemon false true true (fun _ => false) := by
  obtain ⟨-, -, hsucc, hgiveup, hcongr⟩ := C8_auto_start_bounded
  refine ⟨hsucc probeFourth 3 (by decide) (by decide) ?_,
    hgiveup probeNever fun j _ => rfl,
    hcongr probeNever (fun _ => false) fun j _ => rfl⟩
  intro j hj
  simp only [probeFourth, decide_eq_false_iff_not]
  omega

theorem generic_ok_call_of_none (transport : String → String → Option Json)
    (path reqLine : String)
    (h : (transport path reqLine).bind parseGenericOkResponse = none) :
    generic_ok_call transport path reqLine = noRespJson := by
  unfold generic_ok_call
  rw [h]

theorem generic_ok_call_of_some (transport : String → String → Option Json)
    (path reqLine : String) (p : GenericOkPayload)
    (h : (transport path reqLine).bind parseGenericOkResponse = some p) :
    generic_ok_call transport path reqLine = okErrJson p := by
  unfold generic_ok_call
  rw [h]

/-- C6: every mutating verb returns exactly
`{ok: false, error: "no response from daemon"}` when the transport fails
or the response payload mismatches the generic outcome shape
(deserialization gives `none`), and surfaces the parsed payload's
`ok`/`error` verbatim on a well-formed response; each verb is a total
function, so the invoking call never aborts. -/
theorem C6_mutating_verbs_uniform :
    (∀ (ser : Json → String) (transport : String → String → Option Json)
      (path botType : String) (config : Json),
      ((transport path (ser (save_bot_req botType config))).bind
          parseGenericOkResponse = none →
        save_bot (some path) ser transport botType config = noRespJson) ∧
      (∀ p, (transport path (ser (save_bot_req botType config))).bind
          parseGenericOkResponse = some p →
        save_bot (some path) ser transport botType config = okErrJson p)) ∧
    (∀ (ser : Json → String) (transport : String → String → Option Json)
      (path botType botId : String),
      ((transport path (ser (delete_bot_req botType botId))).bind
          parseGenericOkResponse = none →
        delete_bot (some path) ser transport botType botId = noRespJson) ∧
      (∀ p, (transport path (ser (delete_bot_req botType botId))).bind
          parseGenericOkResponse = some p →
        delete_bot (some path) ser transport botType botId = okErrJson p)) ∧
    (∀ (ser : Json → String) (transport : String → String → Option Json)
      (path sessionId botType botId : String),
      ((transport path (ser (bind_bot_req sessionId botType botId))).bind
          parseGenericOkResponse = none →
        bind_bot (some path) ser transport sessionId botType botId = noRespJson) ∧
      (∀ p, (transport path (ser (bind_bot_req sessionId botType botId))).bind
          parseGenericOkResponse = some p →
        bind_bot (some path) ser transport sessionId botType botId = okErrJson p)) ∧
    (∀ (ser : Json → String) (transport : String → String → Option Json)
      (path sessionId botType : String),
      ((transport path (ser (unbind_bot_req sessionId botType))).bind
          parseGenericOkResponse = none →
        unbind_bot (some path) ser transport sessionId botType = noRespJson) ∧
      (∀ p, (transport path (ser (unbind_bot_req sessionId botType))).bind
          parseGenericOkResponse = some p →
        unbind_bot (some path) ser transport sessionId botType = okErrJson p)) ∧
    (∀ (ser : Json → String) (transport : String → String → Option Json)
      (path botType botId : String),
      ((transport path (ser (test_bot_req botType botId))).bind
          parseGenericOkResponse = none →
        test_bot (some path) ser transport botType botId = noRespJson) ∧
      (∀ p, (transport path (ser (test_bot_req botType botId))).bind
          parseGenericOkResponse = some p →
        test_bot (some path) ser transport botType botId = okErrJson p)) ∧
    (∀ (ser : Json → String) (transport : String → String → Option Json)
      (path botId : String),
      ((transport path (ser (activate_bot_req botId))).bind
          parseGenericOkResponse = none →
        activate_bot (some path) ser transport botId = noRespJson) ∧
      (∀ p, (transport path (ser (activate_bot_req botId))).bind
          parseGenericOkResponse = some p →
        activate_bot (some path) ser transport botId = okErrJson p)) ∧
    (∀ (ser : Json → String) (transport : String → String → Option Json)
      (path : String) (config : Json),
      ((transport path (ser (save_config_req config))).bind
          parseGenericOkResponse = none →
        save_config (some path) ser transport config = noRespJson) ∧
      (∀ p, (transport path (ser (save_config_req config))).bind
          parseGenericOkResponse = some p →
        save_config (some path) ser transport config = okErrJson p)) ∧
    (∀ (transport : String → String → Option Json) (path : String),
      ((transport path setup_codex_config_line).bind
          parseGenericOkResponse = none →
        setup_codex_config (some path) transport = noRespJson) ∧
      (∀ p, (transport path setup_codex_config_line).bind
          parseGenericOkResponse = some p →
        setup_codex_config (some path) transport = okErrJson p)) ∧
    (∀ (transport : String → String → Option Json) (path : String),
      ((transport path setup_claude_config_line).bind
          parseGenericOkResponse = none →
        setup_claude_config (some path) transport = noRespJson) ∧
      (∀ p, (transport path setup_claude_config_line).bind
          parseGenericOkResponse = some p →
        setup_claude_config (some path) transport = okErrJson p)) := by
  refine ⟨fun ser transport path bt cfg => ⟨fun h => ?_, fun p h => ?_⟩,
    fun ser transport path bt bid => ⟨fun h => ?_, fun p h => ?_⟩,
    fun ser transport path sid bt bid => ⟨fun h => ?_, fun p h => ?_⟩,
    fun ser transport path sid bt => ⟨fun h => ?_, fun p h => ?_⟩,
    fun ser transport path bt bid => ⟨fun h => ?_, fun p h => ?_⟩,
    fun ser transport path bid => ⟨fun h => ?_, fun p h => ?_⟩,
    fun ser transport path cfg => ⟨fun h => ?_, fun p h => ?_⟩,
    fun transport path => ⟨fun h => ?_, fun p h => ?_⟩,
    fun transport path => ⟨fun h => ?_, fun p h => ?_⟩⟩ <;>
    first
      | exact generic_ok_call_of_none _ _ _ h
      | exact generic_ok_call_of_some _ _ _ _ h

/-- C6 witness: both branches of every verb's specification discharged
on the concrete transports `transportDown` (failure) and
`transportOkTrue` (well-formed response). -/
theorem C6_mutating_verbs_uniform_witness :
    save_bot (some "p") serNull transportDown "interactive" .null = noRespJson ∧
    save_bot (some "p") serNull transportOkTrue "interactive" .null =
      okErrJson ⟨true, none⟩ ∧
    delete_bot (some "p") serNull transportDown "push" "b1" = noRespJson ∧
    delete_bot (some "p") serNull transportOkTrue "push" "b1" =
      okErrJson ⟨true, none⟩ ∧
    bind_bot (some "p") serNull transportDown "s1" "push" "b1" = noRespJson ∧
    bind_bot (some "p") serNull transportOkTrue "s1" "push" "b1" =
      okErrJson ⟨true, none⟩ ∧
    unbind_bot (some "p") serNull transportDown "s1" "push" = noRespJson ∧
    unbind_bot (some "p") serNull transportOkTrue "s1" "push" =
      okErrJson ⟨true, none⟩ ∧
    test_bot (some "p") serNull transportDown "push" "b1" = noRespJson ∧
    test_bot (some "p") serNull transportOkTrue "push" "b1" =
      okErrJson ⟨true, none⟩ ∧
    activate_bot (some "p") serNull transportDown "b1" = noRespJson ∧
    activate_bot (some "p") serNull transportOkTrue "b1" =
      okErrJson ⟨true, none⟩ ∧
    save_config (some "p") serNull transportDown .null = noRespJson ∧
    save_config (some "p") serNull transportOkTrue .null =
      okErrJson ⟨true, none⟩ ∧
    setup_codex_config (some "p") transportDown = noRespJson ∧
    setup_codex_config (some "p") transportOkTrue = okErrJson ⟨true, none⟩ ∧
    setup_claude_config (some "p") transportDown = noRespJson ∧
    setup_claude_config (some "p") transportOkTrue = okErrJson ⟨true, none⟩ := by
  obtain ⟨h1, h2, h3, h4, h5, h6, h7, h8, h9⟩ := C6_mutating_verbs_uniform
  exact ⟨(h1 serNull transportDown "p" "interactive" .null).1 rfl,
    (h1 serNull transportOkTrue "p" "interactive" .null).2 ⟨true, none⟩ rfl,
    (h2 serNull transportDown "p" "push" "b1").1 rfl,
    (h2 serNull transportOkTrue "p" "push" "b1").2 ⟨true, none⟩ rfl,
    (h3 serNull transportDown "p" "s1" "push" "b1").1 rfl,
    (h3 serNull transportOkTrue "p" "s1" "push" "b1").2 ⟨true, none⟩ rfl,
    (h4 serNull transportDown "p" "s1" "push").1 rfl,
    (h4 serNull transportOkTrue "p" "s1" "push").2 ⟨true, none⟩ rfl,
    (h5 serNull transportDown "p" "push" "b1").1 rfl,
    (h5 serNull transportOkTrue "p" "push" "b1").2 ⟨true, none⟩ rfl,
    (h6 serNull transportDown "p" "b1").1 rfl,
    (h6 serNull transportOkTrue "p" "b1").2 ⟨true, none⟩ rfl,
    (h7 serNull transportDown "p" .null).1 rfl,
    (h7 serNull transportOkTrue "p" .null).2 ⟨true, none⟩ rfl,
    (h8 transportDown "p").1 rfl,
    (h8 transportOkTrue "p").2 ⟨true, none⟩ rfl,
    (h9 transportDown "p").1 rfl,
    (h9 transportOkTrue "p").2 ⟨true, none⟩ rfl⟩

theorem zipAdd_isOk (z : ZipEnv) (acc : List (String × String))
    (name content : String) (m1 m2 : String → String) :
    isOkE (zipAdd z acc name content m1 m2) = entryOk z name := by
  unfold zipAdd entryOk
  cases h1 : z.startErr name with
  | some e => simp [isOkE]
  | none =>
    cases h2 : z.writeErr name with
    | some e => simp [isOkE]
    | none => simp [isOkE]

theorem collectLogsStep_isOk (e : CollectEnv) (acc : List (String × String))
    (name : String) :
    isOkE (collectLogsStep e acc name) = stepOk e name := by
  unfold collectLogsStep stepOk
  cases e.fs name with
  | absentF => simp [isOkE]
  | unreadable => simp [isOkE]
  | readable content => exact zipAdd_isOk _ _ _ _ _ _

theorem configStep_isOk (e : CollectEnv) (acc : List (String × String)) :
    isOkE (configStep e acc) = configOk e := by
  unfold configStep configOk
  cases e.fs "config.json" with
  | absentF => simp [isOkE]
  | unreadable => simp [isOkE]
  | readable raw => exact zipAdd_isOk _ _ _ _ _ _

theorem isOkE_bind {α β : Type} (x : Except String α) (f : α → Except String β)
    (c : Bool) (hf : ∀ a, isOkE (f a) = c) :
    isOkE (x.bind f) = (isOkE x && c) := by
  cases x with
  | error er => simp [Except.bind, isOkE]
  | ok a => simpa [Except.bind, isOkE] using hf a

theorem zipAdd_ok_eq (z : ZipEnv) (acc : List (String × String))
    (name content : String) (m1 m2 : String → String)
    (l : List (String × String)) (h : zipAdd z acc name content m1 m2 = .ok l) :
    l = acc ++ [(name, content)] := by
  unfold zipAdd at h
  cases h1 : z.startErr name with
  | some e => rw [h1] at h; exact absurd h (by simp)
  | none =>
    rw [h1] at h
    cases h2 : z.writeErr name with
    | some e => rw [h2] at h; exact absurd h (by simp)
    | none =>
      rw [h2] at h
      exact (Except.ok.inj h).symm

theorem collectLogsStep_ok_eq (e : CollectEnv) (acc : List (String × String))
    (name : String) (l : List (String × String))
    (h : collectLogsStep e acc name = .ok l) :
    l = acc ++ stepEntries e name := by
  unfold collectLogsStep at h
  unfold stepEntries
  cases hf : e.fs name with
  | absentF => rw [hf] at h; simp [(Except.ok.inj h).symm]
  | unreadable => rw [hf] at h; simp [(Except.ok.inj h).symm]
  | readable content =>
    rw [hf] at h
    exact zipAdd_ok_eq _ _ _ _ _ _ _ h

theorem configStep_ok_eq (e : CollectEnv) (acc : List (String × String))
    (l : List (String × String)) (h : configStep e acc = .ok l) :
    l = acc ++ configEntries e := by
  unfold configStep at h
  unfold configEntries
  cases hf : e.fs "config.json" with
  | absentF => rw [hf] at h; simp [(Except.ok.inj h).symm]
  | unreadable => rw [hf] at h; simp [(Except.ok.inj h).symm]
  | readable raw =>
    rw [hf] at h
    exact zipAdd_ok_eq _ _ _ _ _ _ _ h

theorem Except_bind_ok {α β : Type} (x : Except String α)
    (f : α → Except String β) (l : β) (h : x.bind f = .ok l) :
    ∃ a, x = .ok a ∧ f a = .ok l := by
  cases x with
  | error er => simp [Except.bind] at h
  | ok a => exact ⟨a, rfl, h⟩

theorem collect_logs_isOk (e : CollectEnv) :
    isOkE (collect_logs e) = collectOk e := by
  unfold collect_logs collectOk
  cases hh : e.home with
  | none => simp [isOkE]
  | some hm =>
    cases hs : e.savePath with
    | none => simp [isOkE]
    | some sp =>
      cases hc : e.createErr with
      | some ce => simp [isOkE]
      | none =>
        have hfin : ∀ acc5 : List (String × String),
            isOkE (match e.zip.finishErr with
              | some er => Except.error ("Failed to finalize zip: " ++ er)
              | none => Except.ok acc5) = e.zip.finishErr.isNone := by
          intro acc5
          cases e.zip.finishErr <;> simp [isOkE]
        have h5 : ∀ acc4 : List (String × String),
            isOkE ((zipAdd e.zip acc4 "system-info.txt" (sysinfoText e)
                (fun er => "zip start_file sysinfo: " ++ er)
                (fun er => "zip write sysinfo: " ++ er)).bind fun acc5 =>
              match e.zip.finishErr with
              | some er => Except.error ("Failed to finalize zip: " ++ er)
              | none => Except.ok acc5) =
            (entryOk e.zip "system-info.txt" && e.zip.finishErr.isNone) := by
          intro acc4
          rw [isOkE_bind _ _ _ hfin, zipAdd_isOk]
        have h4 : ∀ acc3 : List (String × String),
            isOkE ((configStep e acc3).bind fun acc4 =>
              (zipAdd e.zip acc4 "system-info.txt" (sysinfoText e)
                (fun er => "zip start_file sysinfo: " ++ er)
                (fun er => "zip write sysinfo: " ++ er)).bind fun acc5 =>
              match e.zip.finishErr with
              | some er => Except.error ("Failed to finalize zip: " ++ er)
              | none => Except.ok acc5) =
            (configOk e && (entryOk e.zip "system-info.txt" &&
              e.zip.finishErr.isNone)) := by
          intro acc3
          rw [isOkE_bind _ _ _ h5, configStep_isOk]
        have h3 : ∀ acc2 : List (String × String),
            isOkE ((collectLogsStep e acc2 "proxy-hook-debug.log").bind
              fun acc3 => (configStep e acc3).bind fun acc4 =>
              (zipAdd e.zip acc4 "system-info.txt" (sysinfoText e)
                (fun er => "zip start_file sysinfo: " ++ er)
                (fun er => "zip write sysinfo: " ++ er)).bind fun acc5 =>
              match e.zip.finishErr with
              | some er => Except.error ("Failed to finalize zip: " ++ er)
              | none => Except.ok acc5) =
            (stepOk e "proxy-hook-debug.log" && (configOk e &&
              (entryOk e.zip "system-info.txt" && e.zip.finishErr.isNone))) := by
          intro acc2
          rw [isOkE_bind _ _ _ h4, collectLogsStep_isOk]
        have h2 : ∀ acc1 : List (String × String),
            isOkE ((collectLogsStep e acc1 "proxy-debug.log").bind fun acc2 =>
              (collectLogsStep e acc2 "proxy-hook-debug.log").bind fun acc3 =>
              (configStep e acc3).bind fun acc4 =>
              (zipAdd e.zip acc4 "system-info.txt" (sysinfoText e)
                (fun er => "zip start_file sysinfo: " ++ er)
                (fun er => "zip write sysinfo: " ++ er)).bind fun acc5 =>
              match e.zip.finishErr with
              | some er => Except.error ("Failed to finalize zip: " ++ er)
              | none => Except.ok acc5) =
            (stepOk e "proxy-debug.log" && (stepOk e "proxy-hook-debug.log" &&
              (configOk e && (entryOk e.zip "system-info.txt" &&
                e.zip.finishErr.isNone)))) := by
          intro acc1
          rw [isOkE_bind _ _ _ h3, collectLogsStep_isOk]
        rw [isOkE_bind _ _ _ h2, collectLogsStep_isOk]
        simp

theorem collect_logs_ok_eq (e : CollectEnv) (l : List (String × String))
    (h : collect_logs e = .ok l) : l = builtEntries e := by
  unfold collect_logs at h
  cases hh : e.home with
  | none => rw [hh] at h; exact absurd h (by simp)
  | some hm =>
    rw [hh] at h
    cases hs : e.savePath with
    | none => rw [hs] at h; exact absurd h (by simp)
    | some sp =>
      rw [hs] at h
      cases hc : e.createErr with
      | some ce => rw [hc] at h; exact absurd h (by simp)
      | none =>
        rw [hc] at h
        obtain ⟨acc1, hs1, h⟩ := Except_bind_ok _ _ _ h
        obtain ⟨acc2, hs2, h⟩ := Except_bind_ok _ _ _ h
        obtain ⟨acc3, hs3, h⟩ := Except_bind_ok _ _ _ h
        obtain ⟨acc4, hs4, h⟩ := Except_bind_ok _ _ _ h
        obtain ⟨acc5, hs5, h⟩ := Except_bind_ok _ _ _ h
        have e1 := collectLogsStep_ok_eq e [] "daemon.json" acc1 hs1
        have e2 := collectLogsStep_ok_eq e acc1 "proxy-debug.log" acc2 hs2
        have e3 := collectLogsStep_ok_eq e acc2 "proxy-hook-debug.log" acc3 hs3
        have e4 := configStep_ok_eq e acc3 acc4 hs4
        have e5 := zipAdd_ok_eq e.zip acc4 "system-info.txt" (sysinfoText e)
          _ _ acc5 hs5
        have hl : acc5 = l := by
          cases hfin : e.zip.finishErr with
          | some er => rw [hfin] at h; exact absurd h (by simp)
          | none => rw [hfin] at h; exact Except.ok.inj h
        subst hl
        subst e5
        subst e4
        subst e3
        subst e2
        subst e1
        simp [builtEntries, List.append_assoc]

theorem sanitize_config_of_unparsed (fromStr : String → Option Json)
    (ser : Json → Option String) (raw : String) (h : fromStr raw = none) :
    sanitize_config fromStr ser raw = raw := by
  unfold sanitize_config
  rw [h]

/-- C4 (amended): the export succeeds exactly when the preliminary steps
succeed and every zip operation that is attempted (`start_file` /
`write_all` for each written entry, and `finish`) succeeds — so any such
failure aborts the whole operation with a descriptive error — but a
present file whose read fails is silently skipped: for the two proxy log
files and for `config.json` an unreadable present file behaves exactly
like an absent one, and an unreadable `daemon.json` contributes no
archive entry (it still flips the lock-exists flag of
`system-info.txt`). -/
theorem C4_collect_logs_amended :
    (∀ e : CollectEnv, isOkE (collect_logs e) = collectOk e) ∧
    (∀ e : CollectEnv,
      collect_logs (withFile e "proxy-debug.log" .unreadable) =
        collect_logs (withFile e "proxy-debug.log" .absentF)) ∧
    (∀ e : CollectEnv,
      collect_logs (withFile e "proxy-hook-debug.log" .unreadable) =
        collect_logs (withFile e "proxy-hook-debug.log" .absentF)) ∧
    (∀ e : CollectEnv,
      collect_logs (withFile e "config.json" .unreadable) =
        collect_logs (withFile e "config.json" .absentF)) ∧
    (∀ (e : CollectEnv) (l : List (String × String)),
      e.fs "daemon.json" = .unreadable → collect_logs e = .ok l →
      "daemon.json" ∉ l.map Prod.fst) := by
  refine ⟨collect_logs_isOk, ?_, ?_, ?_, ?_⟩
  · intro e
    unfold collect_logs collectLogsStep configStep sysinfoText withFile
    simp +decide [FileState.isPresent]
  · intro e
    unfold collect_logs collectLogsStep configStep sysinfoText withFile
    simp +decide [FileState.isPresent]
  · intro e
    unfold collect_logs collectLogsStep configStep sysinfoText withFile
    simp +decide [FileState.isPresent]
  · intro e l hd hok
    have hb := collect_logs_ok_eq e l hok
    subst hb
    cases h1 : e.fs "proxy-debug.log" <;>
      cases h2 : e.fs "proxy-hook-debug.log" <;>
      cases h3 : e.fs "config.json" <;>
      simp +decide [builtEntries, stepEntries, configEntries, hd, h1, h2, h3]

/-- C4 counterexample: `proxy-debug.log` is present but unreadable, yet
the export completes without any error and without the file — the claim
requires the I/O failure on this present file to abort the whole
operation. -/
theorem C4_counterexample :
    envC4.fs "proxy-debug.log" = FileState.unreadable ∧
    (envC4.fs "proxy-debug.log").isPresent = true ∧
    collect_logs envC4 = .ok [("system-info.txt", sysinfoText envC4)] ∧
    "proxy-debug.log" ∉
      ([("system-info.txt", sysinfoText envC4)].map Prod.fst) := by
  refine ⟨rfl, rfl, rfl, by decide⟩

/-- C4 witness: the hypothesis-bearing part of `C4_collect_logs_amended`
discharged on a concrete environment with an unreadable `daemon.json`. -/
theorem C4_collect_logs_amended_witness :
    "daemon.json" ∉
      ([("system-info.txt", sysinfoText envDaemonUnreadable)].map Prod.fst) := by
  obtain ⟨-, -, -, -, hskip⟩ := C4_collect_logs_amended
  exact hskip envDaemonUnreadable
    [("system-info.txt", sysinfoText envDaemonUnreadable)] rfl rfl

/-- C9: a string that does not parse as JSON passes through
`sanitize_config` unchanged, and consequently an unparseable (but
readable) `config.json` is embedded verbatim in the archive under the
entry `config-sanitized.json` whenever the export succeeds. -/
theorem C9_unparseable_config_verbatim :
    (∀ (fromStr : String → Option Json) (ser : Json → Option String)
      (raw : String), fromStr raw = none →
      sanitize_config fromStr ser raw = raw) ∧
    (∀ (e : CollectEnv) (raw : String) (l : List (String × String)),
      e.fs "config.json" = .readable raw → e.fromStr raw = none →
      collect_logs e = .ok l → ("config-sanitized.json", raw) ∈ l) := by
  refine ⟨sanitize_config_of_unparsed, ?_⟩
  intro e raw l hcfg hparse hok
  have hb := collect_logs_ok_eq e l hok
  subst hb
  have hce : configEntries e = [("config-sanitized.json", raw)] := by
    simp only [configEntries, hcfg]
    rw [sanitize_config_of_unparsed _ _ _ hparse]
  simp [builtEntries, hce]

/-- C9 witness: both parts of `C9_unparseable_config_verbatim`
discharged on the concrete environment `envC9`. -/
theorem C9_unparseable_config_verbatim_witness :
    sanitize_config (fun _ => none) (fun _ => none) "not json" = "not json" ∧
    ("config-sanitized.json", "not json") ∈
      [("config-sanitized.json", "not json"),
        ("system-info.txt", sysinfoText envC9)] := by
  obtain ⟨h1, h2⟩ := C9_unparseable_config_verbatim
  exact ⟨h1 (fun _ => none) (fun _ => none) "not json" rfl,
    h2 envC9 "not json"
      [("config-sanitized.json", "not json"),
        ("system-info.txt", sysinfoText envC9)] rfl rfl rfl⟩
